import Mathlib

/-!
Verification development for the Daikin A/C WebThing bridge (daikinthing.py).

The program mirrors the state of Daikin climate-control appliances into
WebThing properties via per-device polling coroutines (`update_level`),
translates raw device fields into semantic values, and relays property
writes back to the appliance as commands.

The embedding below models:
  * Python runtime values flowing through the loops (`PyVal`),
  * the inline numeric guard `isinstance(v, (int, float)) or
    (isinstance(v, str) and v.isnumeric())` (`is_numeric`),
  * the power/mode decoding chain of `DaikinAC.update_level` (`decode_mode`),
  * one poll iteration of `DaikinAC.update_level` (`acIter`) and of
    `DaikinCondenser.update_level` (`condIter`) as functions from the
    results of the device reads to either the list of property
    notifications of that iteration or a propagating exception,
  * the polling loops themselves (`acLoop`, `condLoop`) as functions from a
    schedule of per-iteration inputs (device read results, or the
    cancellation signal delivered at the `await sleep` suspension point)
    to the emitted event trace and the coroutine outcome,
  * the mirrored property state of each Thing (`ACState`, `CondState`)
    with its construction-time initial values, updated by notifications,
  * the write callbacks `set_tgt_temp`, `set_power`, `set_tmode` as
    functions returning the (unchanged) mirrored state, the (empty) list
    of synchronous notifications, and the device commands they issue.

Machine integers of the device protocol are modelled as `Int` (Python ints
are unbounded); device floating-point temperatures are carried opaquely as
rationals since the program performs no arithmetic on them, only
type tests and pass-through.
-/

namespace Daikinthing

/-- Python runtime values that flow through the sync loops: ints, floats
(carried opaquely as rationals; the program never computes with them),
strings, booleans, and `None`. -/
inductive PyVal where
  | int (n : Int)
  | float (q : Rat)
  | str (s : String)
  | bool (b : Bool)
  | none
  deriving DecidableEq, Repr

/-- True exactly on a Python boolean value (`isinstance(v, bool)` on the
tag alone). -/
def PyVal.isBoolVal : PyVal → Bool
  | PyVal.bool _ => true
  | _ => false

/-- A character accepted by Python's `str.isnumeric`: any character
carrying a Unicode numeric value. That is the decimal digits of every
script (category Nd), digit-like characters (category No) such as
superscripts and vulgar fractions, and numeric letters (category Nl)
such as Roman numerals. The Unicode table is embedded here as the ASCII
digits together with the most common non-ASCII numeric blocks; every
code point listed is genuinely numeric in Python. -/
def pyCharIsNumeric (c : Char) : Bool :=
  c.isDigit
  || (0xB2 ≤ c.toNat && c.toNat ≤ 0xB3)      -- superscript two and three
  || c.toNat == 0xB9                         -- superscript one
  || (0xBC ≤ c.toNat && c.toNat ≤ 0xBE)      -- vulgar fractions 1/4, 1/2, 3/4
  || (0x660 ≤ c.toNat && c.toNat ≤ 0x669)    -- Arabic-Indic digits
  || (0x6F0 ≤ c.toNat && c.toNat ≤ 0x6F9)    -- extended Arabic-Indic digits
  || (0x966 ≤ c.toNat && c.toNat ≤ 0x96F)    -- Devanagari digits
  || c.toNat == 0x2070                       -- superscript zero
  || (0x2074 ≤ c.toNat && c.toNat ≤ 0x2079)  -- superscript four to nine
  || (0x2080 ≤ c.toNat && c.toNat ≤ 0x2089)  -- subscript digits
  || (0x2150 ≤ c.toNat && c.toNat ≤ 0x215F)  -- vulgar fraction block
  || (0x2160 ≤ c.toNat && c.toNat ≤ 0x2182)  -- Roman numerals

/-- Python's `str.isnumeric`: true iff the string is nonempty and every
character carries a Unicode numeric value. -/
def pyIsnumeric (s : String) : Bool :=
  !s.isEmpty && s.data.all pyCharIsNumeric

/-- The inline guard of `DaikinAC.update_level` (lines 132 and 134):
`isinstance(v, (int, float)) or (isinstance(v, str) and v.isnumeric())`.
Python `bool` is a subclass of `int`, so booleans pass the isinstance
test; `None` fails both tests. -/
def is_numeric : PyVal → Bool
  | PyVal.int _ => true
  | PyVal.float _ => true
  | PyVal.bool _ => true
  | PyVal.str s => pyIsnumeric s
  | PyVal.none => false

/-- The power/mode decoding chain of `DaikinAC.update_level`
(lines 116-127): power 0 forces "off"; otherwise the mode code selects
the semantic mode string, defaulting to "auto". -/
def decode_mode (power mode : Int) : String :=
  if power = 0 then "off"
  else if mode = 2 then "dehumid"
  else if mode = 3 then "cool"
  else if mode = 4 then "heat"
  else if mode = 6 then "fan"
  else "auto"

/-- A property notification pushed by a `DaikinAC` poll iteration
(`notify_of_external_update` on the corresponding `Value`). -/
inductive ACNote where
  | room (v : PyVal)
  | target (v : PyVal)
  | tmode (v : PyVal)
  | power (v : PyVal)
  deriving DecidableEq, Repr

/-- True exactly on a target-temperature notification. -/
def ACNote.isTargetNote : ACNote → Bool
  | ACNote.target _ => true
  | _ => false

/-- Equality of modelled read results is decidable, so that concrete
poll schedules can be evaluated by `decide`. -/
instance {ε α : Type} [DecidableEq ε] [DecidableEq α] : DecidableEq (Except ε α) := fun a b =>
  match a, b with
  | Except.ok x, Except.ok y =>
    if h : x = y then isTrue (by rw [h])
    else isFalse (by intro hc; cases hc; exact h rfl)
  | Except.ok _, Except.error _ => isFalse (by intro hc; cases hc)
  | Except.error _, Except.ok _ => isFalse (by intro hc; cases hc)
  | Except.error x, Except.error y =>
    if h : x = y then isTrue (by rw [h])
    else isFalse (by intro hc; cases hc; exact h rfl)

/-- The results of the device reads performed during one
`DaikinAC.update_level` iteration, in source order: inside temperature,
target temperature, mode code, power flag. `Except.error` models a raised
exception (a `ReadError` from the `daikinapi` call). -/
structure ACReads where
  in_temp : Except Unit PyVal
  tgt_temp : Except Unit PyVal
  mode : Except Unit Int
  power : Except Unit Int
  deriving DecidableEq, Repr

/-- One poll iteration of `DaikinAC.update_level` (lines 104-137), from
the read results to the list of notifications it pushes, or to a
propagating exception. Only the target-temperature read is wrapped in a
`try/except` (lines 108-111, result `None` on failure); an exception in
any other read propagates out of the iteration. -/
def acIter (r : ACReads) : Except Unit (List ACNote) :=
  match r.in_temp with
  | Except.error e => Except.error e
  | Except.ok in_temp =>
    let tgt_temp : Option PyVal :=
      match r.tgt_temp with
      | Except.ok v => some v
      | Except.error _ => Option.none
    match r.mode with
    | Except.error e => Except.error e
    | Except.ok mode =>
      match r.power with
      | Except.error e => Except.error e
      | Except.ok power =>
        let tmode := decode_mode power mode
        let roomNotes := if is_numeric in_temp then [ACNote.room in_temp] else []
        let tgtNotes :=
          match tgt_temp with
          | some v => if is_numeric v then [ACNote.target v] else []
          | Option.none => []
        Except.ok (roomNotes ++ tgtNotes ++
          [ACNote.tmode (PyVal.str tmode), ACNote.power (PyVal.int power)])

/-- What one scheduled iteration of the `DaikinAC.update_level` loop
encounters: either the cancellation signal, delivered at the
`await sleep` suspension point (the loop's only await), or the results of
that iteration's device reads. -/
inductive ACInput where
  | cancel
  | reads (r : ACReads)
  deriving DecidableEq, Repr

/-- An observable event of a `DaikinAC.update_level` run: completing the
inter-poll sleep, or pushing one property notification. -/
inductive ACEvent where
  | sleep
  | notify (n : ACNote)
  deriving DecidableEq, Repr

/-- How an `update_level` coroutine run ends: still running (schedule
exhausted), returned normally (the `except CancelledError: pass` handler
absorbed the cancellation), or terminated by a propagating exception. -/
inductive Outcome where
  | running
  | completedNormally
  | raisedError
  deriving DecidableEq, Repr

/-- The `DaikinAC.update_level` loop (lines 101-141): each iteration
sleeps, then reads and notifies. A cancellation delivered during the
sleep raises `CancelledError`, which the handler catches, ending the
coroutine normally. Any other exception escaping an iteration does not
match `except CancelledError` and terminates the coroutine erroneously;
no further iteration runs. -/
def acLoop : List ACInput → List ACEvent × Outcome
  | [] => ([], Outcome.running)
  | ACInput.cancel :: _ => ([], Outcome.completedNormally)
  | ACInput.reads r :: rest =>
    match acIter r with
    | Except.error _ => ([ACEvent.sleep], Outcome.raisedError)
    | Except.ok ns =>
      let p := acLoop rest
      (ACEvent.sleep :: (ns.map ACEvent.notify ++ p.1), p.2)

/-- The mirrored property values of a `DaikinAC` Thing: the `Value`
objects registered in `DaikinAC.__init__`. -/
structure ACState where
  room_temperature : PyVal
  target_temperature : PyVal
  thermo_mode : PyVal
  power : PyVal
  deriving DecidableEq, Repr

/-- Construction-time placeholders of `DaikinAC.__init__`:
`Value(0.0)`, `Value(0.0, ...)`, `Value("off", ...)`, `Value(False, ...)`. -/
def ACState.init : ACState :=
  { room_temperature := PyVal.float 0
    target_temperature := PyVal.float 0
    thermo_mode := PyVal.str "off"
    power := PyVal.bool false }

/-- Effect of one notification on the mirrored `DaikinAC` state. -/
def applyACNote (s : ACState) : ACNote → ACState
  | ACNote.room v => { s with room_temperature := v }
  | ACNote.target v => { s with target_temperature := v }
  | ACNote.tmode v => { s with thermo_mode := v }
  | ACNote.power v => { s with power := v }

/-- Effect of a list of notifications, applied in order. -/
def applyACNotes (s : ACState) (ns : List ACNote) : ACState :=
  ns.foldl applyACNote s

/-- A property notification pushed by a `DaikinCondenser` poll iteration. -/
inductive CondNote where
  | outside (v : PyVal)
  deriving DecidableEq, Repr

/-- One poll iteration of `DaikinCondenser.update_level` (lines 207-212):
a single outside-temperature read, notified unconditionally on success;
a read exception propagates out of the iteration. -/
def condIter (r : Except Unit PyVal) : Except Unit (List CondNote) :=
  match r with
  | Except.ok v => Except.ok [CondNote.outside v]
  | Except.error e => Except.error e

/-- What one scheduled iteration of the `DaikinCondenser.update_level`
loop encounters. -/
inductive CondInput where
  | cancel
  | reads (r : Except Unit PyVal)
  deriving DecidableEq, Repr

/-- An observable event of a `DaikinCondenser.update_level` run. -/
inductive CondEvent where
  | sleep
  | notify (n : CondNote)
  deriving DecidableEq, Repr

/-- The `DaikinCondenser.update_level` loop (lines 204-216), with the
same structure as `acLoop`: only `CancelledError` is absorbed; any other
exception terminates the coroutine. -/
def condLoop : List CondInput → List CondEvent × Outcome
  | [] => ([], Outcome.running)
  | CondInput.cancel :: _ => ([], Outcome.completedNormally)
  | CondInput.reads r :: rest =>
    match condIter r with
    | Except.error _ => ([CondEvent.sleep], Outcome.raisedError)
    | Except.ok ns =>
      let p := condLoop rest
      (CondEvent.sleep :: (ns.map CondEvent.notify ++ p.1), p.2)

/-- The mirrored property state of a `DaikinCondenser` Thing. -/
structure CondState where
  outside_temperature : PyVal
  deriving DecidableEq, Repr

/-- Construction-time placeholder of `DaikinCondenser.__init__`:
`Value(0.0)`. -/
def CondState.init : CondState :=
  { outside_temperature := PyVal.float 0 }

/-- Effect of one notification on the mirrored `DaikinCondenser` state. -/
def applyCondNote (s : CondState) : CondNote → CondState
  | CondNote.outside v => { s with outside_temperature := v }

/-- Effect of a list of notifications, applied in order. -/
def applyCondNotes (s : CondState) (ns : List CondNote) : CondState :=
  ns.foldl applyCondNote s

/-- A command issued to the appliance by a write callback: an attribute
assignment on a fresh `Daikin` client handle. -/
inductive DeviceCmd where
  | writeTargetTemp (v : PyVal)
  | writePower (n : Int)
  | writeMode (n : Int)
  deriving DecidableEq, Repr

/-- The `DaikinAC.set_tgt_temp` callback (lines 143-145): issues a single
target-temperature write; touches no mirrored property and pushes no
notification. -/
def set_tgt_temp (s : ACState) (new_temp : PyVal) :
    ACState × List ACNote × List DeviceCmd :=
  (s, [], [DeviceCmd.writeTargetTemp new_temp])

/-- The `DaikinAC.set_power` callback (lines 147-149): writes power 1 or
0 by truthiness of the argument; touches no mirrored property. -/
def set_power (s : ACState) (power_state : Bool) :
    ACState × List ACNote × List DeviceCmd :=
  (s, [], [DeviceCmd.writePower (if power_state then 1 else 0)])

/-- The `DaikinAC.set_tmode` callback (lines 151-164): "off" writes
power 0; the four named modes write their mode code; anything else
(including "auto") writes mode code 1. Touches no mirrored property. -/
def set_tmode (s : ACState) (new_tmode : String) :
    ACState × List ACNote × List DeviceCmd :=
  (s, [],
    if new_tmode = "off" then [DeviceCmd.writePower 0]
    else if new_tmode = "dehumid" then [DeviceCmd.writeMode 2]
    else if new_tmode = "cool" then [DeviceCmd.writeMode 3]
    else if new_tmode = "heat" then [DeviceCmd.writeMode 4]
    else if new_tmode = "fan" then [DeviceCmd.writeMode 6]
    else [DeviceCmd.writeMode 1])

/-- The appliance-side settings a write command can change. -/
structure DeviceState where
  power : Int
  mode : Int
  deriving DecidableEq, Repr

/-- Effect of one write command on the appliance settings. -/
def applyCmd (d : DeviceState) : DeviceCmd → DeviceState
  | DeviceCmd.writeTargetTemp _ => d
  | DeviceCmd.writePower n => { d with power := n }
  | DeviceCmd.writeMode n => { d with mode := n }

/-- Effect of a list of write commands, applied in order. -/
def applyCmds (d : DeviceState) (cs : List DeviceCmd) : DeviceState :=
  cs.foldl applyCmd d

/-- Spec-side reference table for the mode decoding, written from the
spec's words: "if power == 0 → Off; elif mode_code == 2 → Dehumidify;
== 3 → Cool; == 4 → Heat; == 6 → Fan; else → Auto", in the source's
string rendering of the semantic modes. -/
def decode_mode_spec (power mode : Int) : String :=
  if power = 0 then "off"
  else if mode = 2 then "dehumid"
  else if mode = 3 then "cool"
  else if mode = 4 then "heat"
  else if mode = 6 then "fan"
  else "auto"

/-- Spec-side numeric test, written from the spec's words: "true if v is
already a number, or is a string composed solely of decimal digits (no
sign, no decimal point)". In Python, `bool` is a subclass of `int` and
hence a number. -/
def numericPerSpec (v : PyVal) : Bool :=
  (match v with
   | PyVal.int _ => true
   | PyVal.float _ => true
   | PyVal.bool _ => true
   | _ => false) ||
  (match v with
   | PyVal.str s => decide (s ≠ "") && s.data.all Char.isDigit
   | _ => false)

/-- Spec-side numeric test as the counterexample forces it to be
amended: true if v is already a number (Python counts `bool` as a
number), or is a nonempty string composed solely of characters that are
numeric in Python's Unicode sense — a superset of the decimal digits
that also contains superscripts, vulgar fractions, non-ASCII digits and
Roman numerals. -/
def numericAmendedSpec (v : PyVal) : Bool :=
  (match v with
   | PyVal.int _ => true
   | PyVal.float _ => true
   | PyVal.bool _ => true
   | _ => false) ||
  (match v with
   | PyVal.str s => decide (s ≠ "") && s.data.all pyCharIsNumeric
   | _ => false)

/-- Claim C1, counterexample: a poll schedule whose first iteration's
inside-temperature read raises a `ReadError` and whose second iteration
would succeed. The loop emits only the first sleep and terminates with a
propagating exception: the failure is not swallowed at the iteration
boundary, no next sleep happens, and no subsequent iteration polls —
contradicting the claim that the loop continues polling. -/
theorem c1_read_error_counterexample :
    acLoop [ACInput.reads ⟨Except.error (), Except.ok (PyVal.float 23),
        Except.ok 3, Except.ok 1⟩,
      ACInput.reads ⟨Except.ok (PyVal.float 21), Except.ok (PyVal.float 23),
        Except.ok 3, Except.ok 1⟩] =
      ([ACEvent.sleep], Outcome.raisedError) ∧
    Outcome.raisedError ≠ Outcome.completedNormally ∧
    Outcome.raisedError ≠ Outcome.running :=
  ⟨by decide, by decide, by decide⟩

/-- Claim C1, amended: only a failure of the target-temperature read is
swallowed (the iteration proceeds and simply does not notify the target
property); a `ReadError` in any other device read — inside temperature,
mode, or power of a `DaikinAC`, or the outside temperature of a
`DaikinCondenser` — escapes `update_level`, whose handler catches only
`CancelledError`: no property is notified for that iteration and the
loop terminates, so no subsequent iteration runs. -/
theorem c1_read_error_terminates_loop :
    (∀ (tgt : Except Unit PyVal) (md pw : Except Unit Int)
        (rest : List ACInput),
      acLoop (ACInput.reads ⟨Except.error (), tgt, md, pw⟩ :: rest) =
        ([ACEvent.sleep], Outcome.raisedError)) ∧
    (∀ (v : PyVal) (tgt : Except Unit PyVal) (pw : Except Unit Int)
        (rest : List ACInput),
      acLoop (ACInput.reads ⟨Except.ok v, tgt, Except.error (), pw⟩ :: rest) =
        ([ACEvent.sleep], Outcome.raisedError)) ∧
    (∀ (v : PyVal) (tgt : Except Unit PyVal) (m : Int) (rest : List ACInput),
      acLoop
          (ACInput.reads ⟨Except.ok v, tgt, Except.ok m, Except.error ()⟩ ::
            rest) =
        ([ACEvent.sleep], Outcome.raisedError)) ∧
    (∀ rest : List CondInput,
      condLoop (CondInput.reads (Except.error ()) :: rest) =
        ([CondEvent.sleep], Outcome.raisedError)) ∧
    (∀ (v : PyVal) (m p : Int),
      ∃ ns, acIter ⟨Except.ok v, Except.error (), Except.ok m, Except.ok p⟩ =
        Except.ok ns) :=
  ⟨fun _ _ _ _ => rfl, fun _ _ _ _ => rfl, fun _ _ _ _ => rfl, fun _ => rfl,
    fun _ _ _ => ⟨_, rfl⟩⟩

/-- Claim C2, counterexample: a `DaikinCondenser` poll that reads the
non-numeric sentinel string "N/A" pushes it to the `outside_temperature`
property unconditionally — `DaikinCondenser.update_level` has no
`is_numeric` guard — so the malformed read overwrites the externally
visible value, contradicting the claim for the CondenserUnit. -/
theorem c2_numeric_filter_counterexample :
    condIter (Except.ok (PyVal.str "N/A")) =
      Except.ok [CondNote.outside (PyVal.str "N/A")] ∧
    is_numeric (PyVal.str "N/A") = false ∧
    (applyCondNotes CondState.init
        [CondNote.outside (PyVal.str "N/A")]).outside_temperature =
      PyVal.str "N/A" :=
  ⟨by decide, by decide, by decide⟩

/-- Claim C2, amended: the IndoorUnit's room temperature is pushed to the
property sink only when `is_numeric` holds for the raw value, so a
malformed room-temperature read never overwrites that property; the
CondenserUnit, however, pushes every successfully read outside
temperature unconditionally, so a malformed outside reading does
overwrite `outside_temperature`. -/
theorem c2_numeric_filter_amended :
    (∀ (r : ACReads) (ns : List ACNote) (v : PyVal),
      acIter r = Except.ok ns → ACNote.room v ∈ ns → is_numeric v = true) ∧
    (∀ v : PyVal, condIter (Except.ok v) = Except.ok [CondNote.outside v]) := by
  constructor
  · rintro ⟨it, tt, md, pw⟩ ns v h hm
    cases it with
    | error e => simp [acIter] at h
    | ok iv =>
      cases md with
      | error e => simp [acIter] at h
      | ok m =>
        cases pw with
        | error e => simp [acIter] at h
        | ok p =>
          cases tt with
          | error e =>
            simp only [acIter] at h
            cases h
            cases hv : is_numeric iv <;> simp [hv] at hm
            rw [hm]
            exact hv
          | ok tv =>
            simp only [acIter] at h
            cases h
            cases hv : is_numeric iv <;> cases ht : is_numeric tv <;>
              simp [hv, ht] at hm <;> rw [hm] <;> exact hv
  · intro v
    rfl

/-- Claim C2, witness: the amended theorem's first part applied to a
concrete successful poll whose room reading 21.0 was notified. -/
theorem c2_numeric_filter_witness :
    is_numeric (PyVal.float 21) = true :=
  c2_numeric_filter_amended.1
    ⟨Except.ok (PyVal.float 21), Except.ok (PyVal.float 23),
      Except.ok 3, Except.ok 1⟩
    [ACNote.room (PyVal.float 21), ACNote.target (PyVal.float 23),
      ACNote.tmode (PyVal.str "cool"), ACNote.power (PyVal.int 1)]
    (PyVal.float 21) (by decide) (by decide)

/-- Claim C3: `decode_mode` is total and deterministic over all integer
inputs and equals the spec's reference table: power 0 yields "off" for
every mode code; otherwise mode 2 yields "dehumid", 3 "cool", 4 "heat",
6 "fan", and every other mode code yields "auto", never an error. -/
theorem c3_decode_mode_table :
    (∀ p m : Int, decode_mode p m = decode_mode_spec p m) ∧
    (∀ m : Int, decode_mode 0 m = "off") ∧
    decode_mode 1 2 = "dehumid" ∧ decode_mode 1 3 = "cool" ∧
    decode_mode 1 4 = "heat" ∧ decode_mode 1 6 = "fan" ∧
    (∀ p m : Int, p ≠ 0 → m ≠ 2 → m ≠ 3 → m ≠ 4 → m ≠ 6 →
      decode_mode p m = "auto") := by
  refine ⟨fun p m => rfl, fun m => rfl, rfl, rfl, rfl, rfl, ?_⟩
  intro p m hp h2 h3 h4 h6
  simp [decode_mode, hp, h2, h3, h4, h6]

/-- Claim C3, witness: the default branch of the table applied at the
unrecognised mode code 5 with power on. -/
theorem c3_decode_mode_table_witness :
    decode_mode 1 5 = "auto" :=
  c3_decode_mode_table.2.2.2.2.2.2 1 5 (by decide) (by decide) (by decide)
    (by decide) (by decide)

/-- Claim C4, counterexample: the string "²" (superscript two). Python's
`str.isnumeric` accepts it, so the guard passes it through to the
property sink, yet it is not composed of decimal digits — the claimed
"exactly a number or a digit-only string" equivalence fails at this
input. -/
theorem c4_is_numeric_counterexample :
    is_numeric (PyVal.str "²") = true ∧
    numericPerSpec (PyVal.str "²") = false :=
  ⟨by decide, by decide⟩

/-- Claim C4, amended: `is_numeric` returns true exactly when the value
is already a number (Python counts `bool` as a number) or a nonempty
string composed solely of characters that are numeric in Python's
Unicode sense — a superset of the decimal digits that also admits, for
example, superscripts and vulgar fractions. The spec's four examples
still hold: `21.5` (a float) passes, "21" passes, "N/A" fails, "21.5"
fails; and the non-decimal numeric string "²" passes. -/
theorem c4_is_numeric_amended :
    (∀ v : PyVal, is_numeric v = numericAmendedSpec v) ∧
    is_numeric (PyVal.float (43 / 2)) = true ∧
    is_numeric (PyVal.str "21") = true ∧
    is_numeric (PyVal.str "N/A") = false ∧
    is_numeric (PyVal.str "21.5") = false ∧
    is_numeric (PyVal.str "²") = true := by
  refine ⟨?_, by decide, by decide, by decide, by decide, by decide⟩
  intro v
  cases v with
  | str s =>
    have he : s.isEmpty = decide (s = "") := by
      rw [Bool.eq_iff_iff]
      simp [String.isEmpty_iff]
    simp [is_numeric, numericAmendedSpec, pyIsnumeric, he]
  | _ => rfl

/-- Claim C5, counterexample: encoding the target mode "cool" only
writes mode code 3 and leaves power untouched, so on an appliance whose
power flag is 0 the subsequent decode yields "off", not "cool" — the
round-trip as stated (for every target, with no proviso on the prior
device state) fails. -/
theorem c5_roundtrip_counterexample :
    decode_mode (applyCmds ⟨0, 3⟩ (set_tmode ACState.init "cool").2.2).power
        (applyCmds ⟨0, 3⟩ (set_tmode ACState.init "cool").2.2).mode = "off" ∧
    "off" ≠ "cool" :=
  ⟨by decide, by decide⟩

/-- Claim C5, amended: for every target mode in the enumeration,
applying the device writes issued by `set_tmode` to an appliance state
and decoding the resulting power/mode pair reproduces the target,
provided the target is "off" or the appliance's power flag is nonzero
(non-off targets leave power untouched); in particular "off" writes
power 0 and decodes to "off" for any prior mode code, and "auto" writes
mode code 1, which decodes back to "auto". -/
theorem c5_roundtrip_amended (s : ACState) (d : DeviceState) (t : String)
    (ht : t ∈ ["off", "auto", "cool", "heat", "dehumid", "fan"])
    (hp : t = "off" ∨ d.power ≠ 0) :
    decode_mode (applyCmds d (set_tmode s t).2.2).power
      (applyCmds d (set_tmode s t).2.2).mode = t := by
  have hpow : t ≠ "off" → d.power ≠ 0 := by
    intro hne
    rcases hp with h | h
    · exact absurd h hne
    · exact h
  simp only [List.mem_cons, List.not_mem_nil, or_false] at ht
  rcases ht with h | h | h | h | h | h <;> subst h
  · simp [set_tmode, applyCmds, applyCmd, decode_mode]
  · have hd := hpow (by decide)
    simp [set_tmode, applyCmds, applyCmd, decode_mode, hd]
  · have hd := hpow (by decide)
    simp [set_tmode, applyCmds, applyCmd, decode_mode, hd]
  · have hd := hpow (by decide)
    simp [set_tmode, applyCmds, applyCmd, decode_mode, hd]
  · have hd := hpow (by decide)
    simp [set_tmode, applyCmds, applyCmd, decode_mode, hd]
  · have hd := hpow (by decide)
    simp [set_tmode, applyCmds, applyCmd, decode_mode, hd]

/-- Claim C5, witness: the amended round-trip at target "cool" on a
powered-on appliance. -/
theorem c5_roundtrip_witness :
    decode_mode (applyCmds ⟨1, 0⟩ (set_tmode ACState.init "cool").2.2).power
      (applyCmds ⟨1, 0⟩ (set_tmode ACState.init "cool").2.2).mode = "cool" :=
  c5_roundtrip_amended ACState.init ⟨1, 0⟩ "cool" (by decide)
    (Or.inr (by decide))

/-- Claim C6: when the target-temperature read fails but the other reads
succeed, the iteration is not aborted: it produces exactly the room
notification (if the room value is numeric) plus the mode and power
notifications, and no target-temperature notification at all. -/
theorem c6_target_failure_soft (v : PyVal) (m p : Int) :
    acIter ⟨Except.ok v, Except.error (), Except.ok m, Except.ok p⟩ =
      Except.ok ((if is_numeric v then [ACNote.room v] else []) ++
        [ACNote.tmode (PyVal.str (decode_mode p m)),
         ACNote.power (PyVal.int p)]) ∧
    (∀ ns : List ACNote,
      acIter ⟨Except.ok v, Except.error (), Except.ok m, Except.ok p⟩ =
        Except.ok ns →
      ns.all (fun n => !n.isTargetNote) = true) := by
  constructor
  · cases hv : is_numeric v <;> simp [acIter, hv]
  · intro ns h
    simp only [acIter] at h
    cases h
    cases hv : is_numeric v <;> simp [hv, ACNote.isTargetNote]

/-- Claim C6, witness: a concrete iteration with a failed target read
notifies room, mode and power but no target. -/
theorem c6_target_failure_soft_witness :
    ([ACNote.room (PyVal.float 21), ACNote.tmode (PyVal.str "cool"),
        ACNote.power (PyVal.int 1)].all fun n => !n.isTargetNote) = true :=
  (c6_target_failure_soft (PyVal.float 21) 3 1).2
    [ACNote.room (PyVal.float 21), ACNote.tmode (PyVal.str "cool"),
     ACNote.power (PyVal.int 1)] (by decide)

/-- Claim C7: the write callbacks `set_tgt_temp`, `set_power` and
`set_tmode` are fire-and-forget with respect to the mirrored state: for
every input they issue device commands only, leave every mirrored
property value of the Thing unchanged, and push no notification. -/
theorem c7_write_callbacks_frame (s : ACState) (v : PyVal) (b : Bool)
    (t : String) :
    (set_tgt_temp s v).1 = s ∧ (set_tgt_temp s v).2.1 = [] ∧
    (set_power s b).1 = s ∧ (set_power s b).2.1 = [] ∧
    (set_tmode s t).1 = s ∧ (set_tmode s t).2.1 = [] :=
  ⟨rfl, rfl, rfl, rfl, rfl, rfl⟩

/-- Claim C8: if the cancellation signal is delivered at a sleep
boundary while the loop is still live (every earlier scheduled iteration
completed its reads without raising), the `except CancelledError: pass`
handler absorbs it and `update_level` terminates as a normal completion,
so the join in `cancel_update_level_task` propagates no exception. -/
theorem c8_cancel_completes_normally (pre post : List ACInput)
    (h : ∀ inp ∈ pre,
      ∃ r ns, inp = ACInput.reads r ∧ acIter r = Except.ok ns) :
    (acLoop (pre ++ ACInput.cancel :: post)).2 = Outcome.completedNormally := by
  induction pre with
  | nil => rfl
  | cons a pre ih =>
    obtain ⟨r, ns, ha, hr⟩ := h a (List.mem_cons_self a pre)
    subst ha
    simp only [List.cons_append, acLoop, hr]
    exact ih fun inp hm => h inp (List.mem_cons_of_mem _ hm)

/-- Claim C8, witness: cancellation after one successful poll ends the
loop as a normal completion. -/
theorem c8_cancel_witness :
    (acLoop [ACInput.reads ⟨Except.ok (PyVal.float 21),
        Except.ok (PyVal.float 23), Except.ok 3, Except.ok 1⟩,
      ACInput.cancel]).2 = Outcome.completedNormally :=
  c8_cancel_completes_normally
    [ACInput.reads ⟨Except.ok (PyVal.float 21), Except.ok (PyVal.float 23),
      Except.ok 3, Except.ok 1⟩] []
    (by
      intro inp hm
      simp only [List.mem_singleton] at hm
      subst hm
      exact ⟨_, [ACNote.room (PyVal.float 21), ACNote.target (PyVal.float 23),
        ACNote.tmode (PyVal.str "cool"), ACNote.power (PyVal.int 1)],
        rfl, by decide⟩)

/-- Claim C9: the power property is created with the boolean value
`False`, yet every successful poll notifies it with the raw integer read
from the device, so after the first successful poll the externally
visible power value is a Python int, not a bool. -/
theorem c9_power_int_not_bool :
    ACState.init.power = PyVal.bool false ∧
    (∀ (v tv : PyVal) (m p : Int), ∃ ns : List ACNote,
      acIter ⟨Except.ok v, Except.ok tv, Except.ok m, Except.ok p⟩ =
        Except.ok ns ∧
      (applyACNotes ACState.init ns).power = PyVal.int p ∧
      ((applyACNotes ACState.init ns).power).isBoolVal = false) := by
  refine ⟨rfl, ?_⟩
  intro v tv m p
  refine ⟨(if is_numeric v then [ACNote.room v] else []) ++
    (if is_numeric tv then [ACNote.target tv] else []) ++
    [ACNote.tmode (PyVal.str (decode_mode p m)),
     ACNote.power (PyVal.int p)], ?_, ?_, ?_⟩
  · cases hv : is_numeric v <;> cases ht : is_numeric tv <;>
      simp [acIter, hv, ht]
  · cases hv : is_numeric v <;> cases ht : is_numeric tv <;>
      simp [hv, ht, applyACNotes, applyACNote]
  · cases hv : is_numeric v <;> cases ht : is_numeric tv <;>
      simp [hv, ht, applyACNotes, applyACNote, PyVal.isBoolVal]

/-- Claim C10: both update loops sleep before their first device read,
so whatever the poll schedule, the emitted event trace is empty or
begins with a sleep — no notification precedes the first full poll
interval — and until then the mirrored values are the construction-time
placeholders: temperatures 0.0, mode "off", power `False`. -/
theorem c10_sleep_before_first_notify :
    (∀ tr : List ACInput,
      (acLoop tr).1 = [] ∨ ∃ evs, (acLoop tr).1 = ACEvent.sleep :: evs) ∧
    (∀ tr : List CondInput,
      (condLoop tr).1 = [] ∨ ∃ evs, (condLoop tr).1 = CondEvent.sleep :: evs) ∧
    ACState.init =
      ⟨PyVal.float 0, PyVal.float 0, PyVal.str "off", PyVal.bool false⟩ ∧
    CondState.init = ⟨PyVal.float 0⟩ := by
  refine ⟨?_, ?_, rfl, rfl⟩
  · intro tr
    match tr with
    | [] => exact Or.inl rfl
    | ACInput.cancel :: rest => exact Or.inl rfl
    | ACInput.reads r :: rest =>
      cases h : acIter r with
      | error e => exact Or.inr ⟨[], by simp [acLoop, h]⟩
      | ok ns =>
        exact Or.inr
          ⟨List.map ACEvent.notify ns ++ (acLoop rest).1, by simp [acLoop, h]⟩
  · intro tr
    match tr with
    | [] => exact Or.inl rfl
    | CondInput.cancel :: rest => exact Or.inl rfl
    | CondInput.reads r :: rest =>
      cases h : condIter r with
      | error e => exact Or.inr ⟨[], by simp [condLoop, h]⟩
      | ok ns =>
        exact Or.inr
          ⟨List.map CondEvent.notify ns ++ (condLoop rest).1,
            by simp [condLoop, h]⟩

end Daikinthing
